import Mathlib

/-!
Verification of the live-data client of the Quant-Risk-Dashboard frontend:
the WebSocket hook with reconnect/backoff and simulated-data fallback
(`src/frontend/src/hooks/useWebSocket.ts`, and the earlier revision of the
same hook kept in `src/unnamed/part_000`), the message handler, the cache
preload in `src/frontend/src/App.tsx`, and the price-selection logic of
`src/frontend/src/components/LivePrices.tsx`.

The JavaScript is shallowly embedded: each event handler becomes a total
Lean function on an explicit state record, timers become boolean
"pending" fields consumed by explicit fire functions, JSON payloads become
a small inductive value universe, and the React Query cache becomes a
function from topic keys to optional values.  Numbers are rationals.
-/

namespace QuantRisk

/-- One alert record of a LiveData snapshot (useWebSocket.ts lines 8-13). -/
structure Alert where
  ticker : String
  type : String
  message : String
  severity : String
deriving DecidableEq, Repr

/-- The LiveData interface of useWebSocket.ts (lines 4-15): price and change
maps (embedded as association lists in object-key order), an ISO timestamp
string, optional alerts and an optional aggregate change. -/
structure LiveData where
  prices : List (String × ℚ)
  changes : List (String × ℚ)
  timestamp : String
  alerts : Option (List Alert) := none
  totalChange : Option ℚ := none
deriving DecidableEq, Repr

/-- The named sub-objects of the bulk payload fetched by `fetchAllData` in
App.tsx; the payload bodies are opaque to the client, so they are embedded
as abstract string stand-ins. -/
structure AllDataPayload where
  risk_metrics : String
  var_analysis : String
  correlation_matrix : String
  portfolio : String
deriving DecidableEq, Repr

/-- A value held by the shared React Query cache under one topic key. -/
inductive CacheVal where
  | liveSnap (d : LiveData)
  | subObject (s : String)
  | bulk (a : AllDataPayload)
deriving DecidableEq, Repr

/-- The shared React Query cache, keyed by logical topic. -/
def Cache := String → Option CacheVal

/-- A cache in which no topic has been written yet. -/
def emptyCache : Cache := fun _ => none

/-- One `queryClient.setQueryData(topic, value)` call. -/
def setTopic (k : String) (v : CacheVal) (c : Cache) : Cache :=
  fun q => if q = k then some v else c q

/-- A value carried in the `data` field of a parsed inbound message. -/
inductive MsgData where
  | live (d : LiveData)
  | bulk (a : AllDataPayload)
deriving DecidableEq, Repr

/-- An inbound transport frame as seen by the `onmessage` handler:
either `JSON.parse` throws (`malformed`), or it yields an envelope whose
`type` and `data` fields may each be absent. -/
inductive WsMsg where
  | malformed
  | parsed (msgType : Option String) (data : Option MsgData)
deriving DecidableEq, Repr

/-- Everything the `onmessage` handler of useWebSocket.ts (lines 87-98) can
affect: the hook state set by `setData`, the shared cache, and whether the
handler asks to close the socket.  The handler body contains no cache call
and no `close()` call, which the translation makes explicit. -/
structure HandlerResult where
  sink : Option MsgData
  cache : Cache
  closeConn : Bool

/-- Translation of the `onmessage` handler of useWebSocket.ts (lines 87-98):
`JSON.parse` runs inside try/catch, so a malformed frame only logs; a parsed
envelope mutates state via `setData(message.data)` exactly when its type
discriminator is the string `live_update`; nothing else is touched. -/
def onmessage (d : Option MsgData) (c : Cache) : WsMsg → HandlerResult
  | .malformed => ⟨d, c, false⟩
  | .parsed t body =>
      if t = some "live_update" then ⟨body, c, false⟩ else ⟨d, c, false⟩

/-- Whether a frame is a recognized live-update message. -/
def isLiveUpdate : WsMsg → Bool
  | .parsed (some t) _ => t == "live_update"
  | _ => false

/-- Translation of `preloadData` in App.tsx (lines 25-47): after
`fetchAllData` resolves, the cache is primed with the whole payload under
`all-data` and with each named sub-object under its own topic, in source
order. -/
def preloadData (a : AllDataPayload) (c : Cache) : Cache :=
  setTopic "portfolio" (.subObject a.portfolio)
    (setTopic "correlation-matrix" (.subObject a.correlation_matrix)
      (setTopic "var-analysis" (.subObject a.var_analysis)
        (setTopic "risk-metrics" (.subObject a.risk_metrics)
          (setTopic "all-data" (.bulk a) c))))

/-- The fixed base table of `generateDemoData` in useWebSocket.ts
(lines 19-29): ticker, base price, base change. -/
def baseData : List (String × ℚ × ℚ) :=
  [("AAPL", 182.45, 1.23), ("MSFT", 378.92, -0.45), ("GOOGL", 142.67, 2.34),
   ("NVDA", 487.23, 3.45), ("TSLA", 198.45, -2.34), ("JPM", 156.78, 0.78),
   ("GS", 342.56, 1.23), ("BTC-USD", 43567.89, 5.67), ("ETH-USD", 2345.67, 4.32)]

/-- Translation of `generateDemoData` in useWebSocket.ts (lines 18-47).
The per-ticker draw `variation = (Math.random() - 0.5) * 0.5` is passed in
as the function `v` (so the actual draws satisfy `-1/4 ≤ v t < 1/4`), and
`new Date().toISOString()` is passed in as `ts`.  Every tick perturbs the
same fixed base table, not the output of the previous tick. -/
def generateDemoData (v : String → ℚ) (ts : String) : LiveData :=
  let prices := baseData.map fun e => (e.1, e.2.1 * (1 + v e.1 / 100))
  let changes := baseData.map fun e => (e.1, e.2.2 + v e.1)
  { prices := prices
    changes := changes
    timestamp := ts
    alerts := none
    totalChange := some ((changes.map Prod.snd).sum / (changes.length : ℚ)) }

/-- The reconnect delay formula of the part_000 revision (line 142):
`Math.min(1000 * Math.pow(2, retryCount), 30000)`. -/
def backoffTime (n : Nat) : Nat := min (1000 * 2 ^ n) 30000

/-- The value of `retryCount` that the `connect` closure of the part_000 revision
actually reads: the effect has an empty dependency array, so it runs once
and its closure captures the `retryCount` of the first render, which is 0; the
functional updates `setRetryCount(prev => prev + 1)` change the stored
counter but never the captured binding. -/
def capturedRetryCount : Nat := 0

/-- State of the part_000 revision of the hook: the externally observable
flag, the stored React counter, whether a reconnect timer is pending and
with what delay, and whether the catch-branch fallback interval runs. -/
structure RetryState where
  isConnected : Bool
  retryCount : Nat
  reconnectScheduled : Bool
  lastDelay : Option Nat
  simRunning : Bool
deriving DecidableEq, Repr

/-- State right after the part_000 hook mounts. -/
def initRetryState : RetryState :=
  { isConnected := false
    retryCount := 0
    reconnectScheduled := false
    lastDelay := none
    simRunning := false }

/-- Translation of the part_000 `onclose` handler (lines 133-149): clear the
flag, compute the backoff from the captured counter, bump the stored counter
functionally, and schedule a reconnect exactly when the captured counter is
below 3.  The handler does not start the fallback interval. -/
def onclose000 (s : RetryState) : RetryState :=
  { s with
    isConnected := false
    retryCount := s.retryCount + 1
    reconnectScheduled := decide (capturedRetryCount < 3)
    lastDelay :=
      if capturedRetryCount < 3 then some (backoffTime capturedRetryCount)
      else none }

/-- Translation of the part_000 `onopen` handler (lines 111-116): set the
flag and reset the stored counter; the handler does not touch the fallback
interval. -/
def onopen000 (s : RetryState) : RetryState :=
  { s with isConnected := true, retryCount := 0 }

/-- State of the main-revision hook (useWebSocket.ts lines 49-152): the
`mounted` closure flag, the observable connection flag, the data sink, the
socket ref, how often `close()` was invoked, and one pending flag per timer
(reconnect timeout, simulation interval, initial-connect timeout). -/
structure MainState where
  mounted : Bool
  isConnected : Bool
  sink : Option MsgData
  wsPresent : Bool
  closeCalls : Nat
  reconnectPending : Bool
  simPending : Bool
  initialConnectPending : Bool
deriving DecidableEq, Repr

/-- State right after the main-revision hook mounts: `useState` seeds the
sink with a demo snapshot, the effect starts the simulation and schedules
the initial connect after 1000 ms (lines 50 and 124-132). -/
def initMainState (v : String → ℚ) (ts : String) : MainState :=
  { mounted := true
    isConnected := false
    sink := some (.live (generateDemoData v ts))
    wsPresent := false
    closeCalls := 0
    reconnectPending := false
    simPending := true
    initialConnectPending := true }

/-- Translation of `connect` (line 75): a new socket is assigned to the ref. -/
def connectStep (s : MainState) : MainState := { s with wsPresent := true }

/-- Firing of the simulation interval callback (lines 66-70): guarded by
`mounted`, it publishes a fresh demo snapshot. -/
def simTickFire (v : String → ℚ) (ts : String) (s : MainState) : MainState :=
  if s.mounted then { s with sink := some (.live (generateDemoData v ts)) }
  else s

/-- Translation of the main-revision `onopen` handler (lines 77-85): guarded
by `mounted`, it sets the flag and clears the simulation interval. -/
def onopenMain (s : MainState) : MainState :=
  if s.mounted then { s with isConnected := true, simPending := false } else s

/-- Translation of the main-revision `onclose` handler (lines 104-117):
guarded by `mounted`, it clears the flag, starts the simulation, and
schedules a reconnect after a fixed 5000 ms. -/
def oncloseMain (s : MainState) : MainState :=
  if s.mounted then
    { s with
      isConnected := false
      simPending := true
      reconnectPending := true }
  else s

/-- Firing of the reconnect timeout (lines 111-115): the timer is consumed;
`connect` runs only if still mounted. -/
def reconnectFire (s : MainState) : MainState :=
  if s.mounted then connectStep { s with reconnectPending := false }
  else { s with reconnectPending := false }

/-- Firing of the initial-connect timeout (lines 128-132): the timer is
consumed; `connect` runs only if still mounted. -/
def initialConnectFire (s : MainState) : MainState :=
  if s.mounted then connectStep { s with initialConnectPending := false }
  else { s with initialConnectPending := false }

/-- Translation of the effect cleanup (lines 134-148): it flips `mounted`,
invokes `close()` on the socket ref when one is present, and clears the
reconnect timeout and the simulation interval.  The initial-connect timeout
handle was never stored (line 128), so the cleanup cannot and does not
cancel it. -/
def cleanupMain (s : MainState) : MainState :=
  { s with
    mounted := false
    closeCalls := s.closeCalls + (if s.wsPresent then 1 else 0)
    reconnectPending := false
    simPending := false }

/-- The program-visible part of the hook state: the flag, the sink, the
socket ref and the close-call count (timer bookkeeping excluded). -/
def obsMain (s : MainState) : Bool × Option MsgData × Bool × Nat :=
  (s.isConnected, s.sink, s.wsPresent, s.closeCalls)

/-- A transport event as the socket handlers of the hook see it. -/
inductive WsEvent where
  | opened
  | closed
  | errored
  | message
deriving DecidableEq, Repr

/-- Effect of one transport event on the `isConnected` flag, read off the
handlers of useWebSocket.ts: `onopen` sets it true (line 79), `onclose`
sets it false (line 106), `onerror` and `onmessage` leave it alone. -/
def stepConnected (b : Bool) : WsEvent → Bool
  | .opened => true
  | .closed => false
  | .errored => b
  | .message => b

/-- The most recent open/close transition in an event list, as a boolean
(`some true` = open, `some false` = close, `none` = no transition yet). -/
def lastTransitionIsOpen : List WsEvent → Option Bool
  | [] => none
  | e :: rest =>
      match lastTransitionIsOpen rest with
      | some v => some v
      | none =>
        match e with
        | .opened => some true
        | .closed => some false
        | .errored => none
        | .message => none

/-- The JavaScript expression `x || y` on an optional number (LivePrices.tsx
lines 178-181 and 414-417): `undefined` and `0` are falsy, so the fallback
is used exactly when the live value is absent or equal to zero. -/
def jsOrNum (x : Option ℚ) (y : ℚ) : ℚ :=
  match x with
  | none => y
  | some v => if v = 0 then y else v

/-- Translation of `liveData?.prices?.[ticker] || data.current_price`
(LivePrices.tsx line 178 and line 415). -/
def livePriceOf (live : Option LiveData) (t : String) (current_price : ℚ) : ℚ :=
  jsOrNum (live.bind fun d => d.prices.lookup t) current_price

/-- Translation of `liveData?.changes?.[ticker] || data.daily_change`
(LivePrices.tsx line 179 and line 416). -/
def liveChangeOf (live : Option LiveData) (t : String) (daily_change : ℚ) : ℚ :=
  jsOrNum (live.bind fun d => d.changes.lookup t) daily_change

/-- The snapshot of the write-through scenario of the spec: prices AAPL 150,
changes AAPL 1.0, timestamp 2024-01-01T00:00:00Z. -/
def scenarioSnap : LiveData :=
  { prices := [("AAPL", 150)]
    changes := [("AAPL", 1)]
    timestamp := "2024-01-01T00:00:00Z"
    alerts := none
    totalChange := none }

/-- A concrete bulk payload used to exercise the initial-bulk message path. -/
def scenarioBulk : AllDataPayload :=
  { risk_metrics := "rm"
    var_analysis := "va"
    correlation_matrix := "cm"
    portfolio := "pf" }

/-! ## Theorems -/

/-- Folding the per-event flag update over an event list yields the most
recent transition, or the start value when no transition occurred. -/
lemma foldl_stepConnected_eq (es : List WsEvent) :
    ∀ b : Bool, es.foldl stepConnected b = (lastTransitionIsOpen es).getD b := by
  induction es with
  | nil => intro b; rfl
  | cons e rest ih =>
    intro b
    simp only [List.foldl_cons, ih (stepConnected b e), lastTransitionIsOpen]
    cases hr : lastTransitionIsOpen rest with
    | some v => simp
    | none => cases e <;> simp [stepConnected]

/-- C1: the claim says that once the attempt counter exceeds the configured
maximum of 3, no further reconnect attempt is ever scheduled, and that the
delay of each scheduled attempt is `BackoffSchedule(attemptCount)`.  The
part_000 revision violates this: its `onclose` guard and backoff read the
`retryCount` binding captured by the once-run effect closure, which stays 0,
so after the 4th close the stored counter is 4 and yet another reconnect is
scheduled, with the constant delay 1000 ms — contradicting the comments in
the code itself about exponential backoff and retrying only a few times. -/
theorem c1_fourth_close_still_schedules_reconnect :
    onclose000 (onclose000 (onclose000 (onclose000 initRetryState))) =
      { isConnected := false
        retryCount := 4
        reconnectScheduled := true
        lastDelay := some 1000
        simRunning := false } := by
  rfl

/-- C2: the backoff schedule `min(1000 * 2^n, 30000)` is non-decreasing in
the attempt count and bounded above by the configured maximum 30000. -/
theorem c2_backoff_monotone_and_bounded (m n : Nat) (h : m ≤ n) :
    backoffTime m ≤ backoffTime n ∧ backoffTime n ≤ 30000 := by
  constructor
  · exact min_le_min
      (Nat.mul_le_mul le_rfl (Nat.pow_le_pow_right (by norm_num) h)) le_rfl
  · exact min_le_right _ _

/-- Witness for C2 at the concrete attempt counts 2 and 5. -/
theorem c2_backoff_witness :
    backoffTime 2 ≤ backoffTime 5 ∧ backoffTime 5 ≤ 30000 :=
  c2_backoff_monotone_and_bounded 2 5 (by norm_num)

/-- C6: for every sequence of transport events, the `isConnected` flag
computed by folding the handler updates from the initial `false` equals
true exactly when the most recent open/close transition applied was an
open — the handlers set the flag unconditionally from the event kind, and
error and message events leave it unchanged. -/
theorem c6_isConnected_matches_last_transition (evts : List WsEvent) :
    evts.foldl stepConnected false = true ↔
      lastTransitionIsOpen evts = some true := by
  rw [foldl_stepConnected_eq]
  cases h : lastTransitionIsOpen evts with
  | none => simp
  | some v => cases v <;> simp

/-- C10: the LivePrices view selects the live price (change) of the snapshot for
a ticker exactly when it is present and non-zero, and falls back to the
stored portfolio `current_price` (`daily_change`) when the live value is
absent or exactly 0, because selection uses JavaScript truthiness. -/
theorem c10_truthiness_selection (live : Option LiveData) (t : String)
    (cp dc : ℚ) :
    (∀ p : ℚ, (live.bind fun d => d.prices.lookup t) = some p → p ≠ 0 →
      livePriceOf live t cp = p)
    ∧ ((live.bind fun d => d.prices.lookup t) = none →
      livePriceOf live t cp = cp)
    ∧ ((live.bind fun d => d.prices.lookup t) = some 0 →
      livePriceOf live t cp = cp)
    ∧ (∀ q : ℚ, (live.bind fun d => d.changes.lookup t) = some q → q ≠ 0 →
      liveChangeOf live t dc = q)
    ∧ ((live.bind fun d => d.changes.lookup t) = none →
      liveChangeOf live t dc = dc)
    ∧ ((live.bind fun d => d.changes.lookup t) = some 0 →
      liveChangeOf live t dc = dc) := by
  refine ⟨?_, ?_, ?_, ?_, ?_, ?_⟩
  · intro p hp hne
    simp [livePriceOf, jsOrNum, hp, hne]
  · intro h
    simp [livePriceOf, jsOrNum, h]
  · intro h
    simp [livePriceOf, jsOrNum, h]
  · intro q hq hne
    simp [liveChangeOf, jsOrNum, hq, hne]
  · intro h
    simp [liveChangeOf, jsOrNum, h]
  · intro h
    simp [liveChangeOf, jsOrNum, h]

/-- C3 counterexample: at the scenario input given by the spec — a recognized full
snapshot update carrying prices AAPL 150, changes AAPL 1.0 — the handler
does replace the sink, but contrary to the claim the `live-prices` cache
topic does not equal the delivered snapshot: the handler contains no cache
write at all, so the topic is still unset. -/
theorem c3_no_cache_write_counterexample :
    (onmessage none emptyCache
        (.parsed (some "live_update") (some (.live scenarioSnap)))).sink =
      some (.live scenarioSnap)
    ∧ (onmessage none emptyCache
        (.parsed (some "live_update") (some (.live scenarioSnap)))).cache
        "live-prices" = none :=
  ⟨rfl, rfl⟩

/-- C3 amended: for every recognized full-snapshot update, the handler
replaces the data sink with exactly the data body of the message, so the latest
value read by consumers is the delivered snapshot; the shared cache is left
unchanged — there is no write-through and no `live-prices` topic in the
code — and the handler does not close the connection. -/
theorem c3_snapshot_replaces_sink (d : Option MsgData) (c : Cache)
    (body : Option MsgData) :
    onmessage d c (.parsed (some "live_update") body) = ⟨body, c, false⟩ := by
  simp [onmessage]

/-- C4: every inbound frame that is malformed (its JSON parse throws inside
the try/catch of the handler) or whose type discriminator is missing or
unrecognized leaves the current snapshot unchanged, does not throw across
the handler boundary (the translation is a total function), and does not
close the connection. -/
theorem c4_unrecognized_or_malformed_ignored (d : Option MsgData) (c : Cache)
    (m : WsMsg) (h : isLiveUpdate m = false) :
    onmessage d c m = ⟨d, c, false⟩ := by
  cases m with
  | malformed => rfl
  | parsed t body =>
    cases t with
    | none => simp [onmessage]
    | some s =>
      simp only [isLiveUpdate, beq_eq_false_iff_ne, ne_eq] at h
      simp [onmessage, h]

/-- Witness for C4 at a concrete malformed frame. -/
theorem c4_ignored_witness :
    onmessage none emptyCache .malformed = ⟨none, emptyCache, false⟩ :=
  c4_unrecognized_or_malformed_ignored none emptyCache .malformed rfl

/-- C9 counterexample: the message handler does not seed any cache topic
from an initial-bulk message — at a concrete bulk frame the `risk-metrics`
and `portfolio` topics are still unset after delivery, contrary to the
claim; seeding happens only in the REST preload of App.tsx. -/
theorem c9_bulk_message_not_seeded_counterexample :
    (onmessage none emptyCache
        (.parsed (some "initial_data") (some (.bulk scenarioBulk)))).cache
        "risk-metrics" = none
    ∧ (onmessage none emptyCache
        (.parsed (some "initial_data") (some (.bulk scenarioBulk)))).cache
        "portfolio" = none :=
  ⟨rfl, rfl⟩

/-- C9 amended: the named cache topics are seeded from the named fields of
the bulk payload by the REST preload in App.tsx (which does not touch the live
snapshot state), while the WebSocket message handler ignores every message
whose type is not `live_update`, leaving sink and cache unchanged. -/
theorem c9_preload_seeds_topics :
    (∀ (a : AllDataPayload) (c : Cache),
      preloadData a c "risk-metrics" = some (.subObject a.risk_metrics)
      ∧ preloadData a c "var-analysis" = some (.subObject a.var_analysis)
      ∧ preloadData a c "correlation-matrix" =
          some (.subObject a.correlation_matrix)
      ∧ preloadData a c "portfolio" = some (.subObject a.portfolio)
      ∧ preloadData a c "all-data" = some (.bulk a))
    ∧ (∀ (d : Option MsgData) (c : Cache) (t : Option String)
        (body : Option MsgData), t ≠ some "live_update" →
        onmessage d c (.parsed t body) = ⟨d, c, false⟩) := by
  constructor
  · intro a c
    exact ⟨rfl, rfl, rfl, rfl, rfl⟩
  · intro d c t body h
    simp [onmessage, h]

/-- C5 counterexample: unmounting right after mount — while the 1000 ms
initial-connect timeout is still pending — runs the cleanup, and the
initial-connect timer is still pending afterwards: its handle was never
stored, so contrary to the claim the teardown does not cancel it and its
callback does fire after stop. -/
theorem c5_initial_timer_not_cancelled_counterexample :
    (cleanupMain
        (initMainState (fun _ => 0) "2024-01-01T00:00:00Z")).initialConnectPending
      = true :=
  rfl

/-- C5 amended: the cleanup sets the mounted flag false, cancels the pending
reconnect and fallback tick timers, and invokes `close()` once when a socket
is present; the initial-connect timer is not cancelled, but every timer or
socket callback that runs after the cleanup — simulation tick, open, close,
initial-connect fire, reconnect fire — leaves the program-visible state
(flag, sink, socket ref, close count) unchanged because of the mounted
guard. -/
theorem c5_stop_cancels_and_guards (s : MainState) (v : String → ℚ)
    (ts : String) :
    (cleanupMain s).mounted = false
    ∧ (cleanupMain s).reconnectPending = false
    ∧ (cleanupMain s).simPending = false
    ∧ (cleanupMain s).closeCalls =
        s.closeCalls + (if s.wsPresent then 1 else 0)
    ∧ simTickFire v ts (cleanupMain s) = cleanupMain s
    ∧ onopenMain (cleanupMain s) = cleanupMain s
    ∧ oncloseMain (cleanupMain s) = cleanupMain s
    ∧ obsMain (initialConnectFire (cleanupMain s)) = obsMain (cleanupMain s)
    ∧ obsMain (reconnectFire (cleanupMain s)) = obsMain (cleanupMain s) :=
  ⟨rfl, rfl, rfl, rfl, rfl, rfl, rfl, rfl, rfl⟩

/-- C8 counterexample: the `onopen` handler of the part_000 revision applied to a
state in which the fallback interval is running leaves it running — the
handler only sets the flag and resets the counter, so contrary to the claim
the transport-open transition does not suspend the Fallback Generator in
that revision (and the main revision, which does suspend it, has no attempt
counter to reset). -/
theorem c8_onopen000_keeps_fallback_counterexample :
    (onopen000
        { isConnected := false
          retryCount := 2
          reconnectScheduled := false
          lastDelay := none
          simRunning := true }).simRunning = true :=
  rfl

/-- C8 amended: on transport-open the manager sets `isConnected` true; the
main-revision handler additionally cancels the fallback tick timer (that
revision has no attempt counter), and the part_000-revision handler
additionally resets the attempt counter to 0 (it does not touch the
fallback interval). -/
theorem c8_onopen_effects_per_revision :
    (∀ s : MainState, s.mounted = true →
      onopenMain s = { s with isConnected := true, simPending := false })
    ∧ (∀ s : RetryState,
      onopen000 s = { s with isConnected := true, retryCount := 0 }) := by
  constructor
  · intro s hs
    simp [onopenMain, hs]
  · intro s
    rfl

/-- Multiplying a non-negative base by `1 + x/100` with `|x| ≤ 1/4` moves it
by at most 0.25 percent of the base. -/
lemma perturb_within_quarter_percent (b x : ℚ) (hb : 0 ≤ b)
    (hx : |x| ≤ 1/4) : |b * (1 + x / 100) - b| ≤ 25 / 10000 * b := by
  have h1 : b * (1 + x / 100) - b = b * x / 100 := by ring
  rw [h1, abs_div, abs_mul, abs_of_nonneg hb]
  have h2 : b * |x| ≤ b * (1/4) := mul_le_mul_of_nonneg_left hx hb
  have h3 : |(100 : ℚ)| = 100 := by norm_num
  rw [h3]
  linarith

/-- C7 counterexample: two consecutive ticks of the demo generator, one with
draw `+1/5` and the next with draw `-1/5` (both inside the range
`(-0.25, 0.25)` of the generator), produce AAPL prices 182.8149 and 182.0851; the
second is not within 0.25 percent of the first, contrary to the claim —
each tick perturbs the fixed base price, not the price of the previous tick. -/
theorem c7_consecutive_ticks_exceed_bound_counterexample :
    (generateDemoData (fun _ => 1/5) "t1").prices.head? =
      some ("AAPL", 1828149/10000)
    ∧ (generateDemoData (fun _ => -(1/5)) "t2").prices.head? =
      some ("AAPL", 1820851/10000)
    ∧ ¬ |(1820851/10000 : ℚ) - 1828149/10000| ≤
        25/10000 * (1828149/10000) := by
  refine ⟨?_, ?_, ?_⟩
  · simp only [generateDemoData, baseData, List.map_cons, List.head?_cons,
      Option.some.injEq, Prod.mk.injEq]
    norm_num
  · simp only [generateDemoData, baseData, List.map_cons, List.head?_cons,
      Option.some.injEq, Prod.mk.injEq]
    norm_num
  · rw [show (1820851/10000 : ℚ) - 1828149/10000 = -(3649/5000) by norm_num,
      abs_neg, abs_of_nonneg (by norm_num : (0:ℚ) ≤ 3649/5000)]
    norm_num

/-- C7 amended: every tick of the demo generator has the same ticker-key
set in its prices and changes maps as every other tick (the fixed base
base-table keys), and — when every draw is within the generator bound — each
per-ticker price is within 0.25 percent of the fixed base price of that ticker
(not of the price at the previous tick, which can therefore drift by up to about
0.5 percent between consecutive ticks). -/
theorem c7_shape_constant_and_bound_from_base (v v2 : String → ℚ)
    (ts ts2 : String) (hv : ∀ t, |v t| ≤ 1/4) :
    ((generateDemoData v ts).prices.map Prod.fst =
        (generateDemoData v2 ts2).prices.map Prod.fst)
    ∧ ((generateDemoData v ts).changes.map Prod.fst =
        (generateDemoData v ts).prices.map Prod.fst)
    ∧ List.Forall₂
        (fun pr b => pr.1 = b.1 ∧ |pr.2 - b.2.1| ≤ 25/10000 * b.2.1)
        (generateDemoData v ts).prices baseData := by
  refine ⟨rfl, rfl, ?_⟩
  simp only [generateDemoData, baseData, List.map_cons, List.map_nil,
    List.forall₂_cons, List.Forall₂.nil]
  refine ⟨⟨trivial, ?_⟩, ⟨trivial, ?_⟩, ⟨trivial, ?_⟩, ⟨trivial, ?_⟩,
    ⟨trivial, ?_⟩, ⟨trivial, ?_⟩, ⟨trivial, ?_⟩, ⟨trivial, ?_⟩,
    ⟨trivial, ?_⟩, trivial⟩ <;>
    exact perturb_within_quarter_percent _ _ (by norm_num) (hv _)

/-- Witness for the amended C7 statement at two concrete draw functions. -/
theorem c7_shape_witness :
    ((generateDemoData (fun _ => 0) "t1").prices.map Prod.fst =
        (generateDemoData (fun _ => 1/8) "t2").prices.map Prod.fst)
    ∧ ((generateDemoData (fun _ => 0) "t1").changes.map Prod.fst =
        (generateDemoData (fun _ => 0) "t1").prices.map Prod.fst)
    ∧ List.Forall₂
        (fun pr b => pr.1 = b.1 ∧ |pr.2 - b.2.1| ≤ 25/10000 * b.2.1)
        (generateDemoData (fun _ => 0) "t1").prices baseData :=
  c7_shape_constant_and_bound_from_base (fun _ => 0) (fun _ => 1/8) "t1" "t2"
    (fun t => by norm_num)

end QuantRisk
